import Mathlib

/-!
Verification of the bulk channel-membership reconciliation flow of a Slack
bot (`src/main.py`).  The handlers are embedded as pure functions from their
oracle inputs (the results of the directory API calls, plus per-call
success flags modelling which remote calls raise) to the ordered trace of
outbound calls together with a structured outcome.
-/

namespace SlackBot

/-- A workspace member record as returned by `users_list`.  The `is_bot` and
`deleted` fields are `Option Bool` because the Python code reads them with
`u.get("is_bot", False)` / `u.get("deleted", False)`: a missing key
(`none`) defaults to `false`. -/
structure Member where
  id : String
  is_bot : Option Bool
  deleted : Option Bool
deriving DecidableEq, Repr

/-- A channel record as returned by `conversations_list`.  `is_member` and
`is_archived` are read with `ch.get(...)`, so a missing key is falsy. -/
structure Channel where
  id : String
  is_member : Option Bool
  is_archived : Option Bool
deriving DecidableEq, Repr

/-- The filter on workspace members shared by `handle_add_all_command`
(src/main.py lines 100-105) and `handle_confirm_add_all` (lines 189-194):
drop bot-flagged members, deleted members and the sentinel `USLACKBOT`. -/
def active_users (all_users : List Member) : List Member :=
  all_users.filter fun u =>
    !(u.is_bot.getD false) && !(u.deleted.getD false) && u.id != "USLACKBOT"

/-- The membership diff (src/main.py lines 112 and 201): active members
whose id is not among the current channel members. -/
def users_to_add (all_users : List Member) (current_members : List String) :
    List Member :=
  (active_users all_users).filter fun u => !(current_members.contains u.id)

/-- The outbound calls a handler can make, in the order they are issued. -/
inductive Call where
  | usersList : Call
  | conversationsMembers : String → Call
  | conversationsList : Call
  | conversationsJoin : String → Call
  | conversationsInvite : (channel : String) → (user : String) → Call
  | chatPostMessage : (channel : String) → (text : String) → Call
  | respond : (text : String) → Call
  | deleteOriginal : Call
  | replaceOriginal : (text : String) → Call
deriving DecidableEq, Repr

/-- The Directory Client mutations named by the spec: join, invite, and
message delete/update in the channel.  `usersList`, `conversationsMembers`
and `conversationsList` are reads; `respond` is a direct reply to the
invoking user. -/
def Call.isMutation : Call → Bool
  | Call.conversationsJoin _ => true
  | Call.conversationsInvite _ _ => true
  | Call.deleteOriginal => true
  | Call.replaceOriginal _ => true
  | _ => false

/-- Recognise an invite call. -/
def Call.isInvite : Call → Bool
  | Call.conversationsInvite _ _ => true
  | _ => false

/-- Recognise a join call. -/
def Call.isJoin : Call → Bool
  | Call.conversationsJoin _ => true
  | _ => false

/-- Recognise a channel-listing call. -/
def Call.isList : Call → Bool
  | Call.conversationsList => true
  | _ => false

/-- src/main.py line 115: the empty-diff reply of the command handler. -/
def already_text : String :=
  "✅ All workspace members are already in this channel!"

/-- src/main.py line 164: the catch-all error reply of the command handler. -/
def command_err_text : String :=
  "❌ Something went wrong. Most likely, you need to invite the Pinewood Robot to your channel first (especially if its a private channel)."

/-- src/main.py line 119: the space-separated @-mention list. -/
def user_mentions (to_add : List Member) : String :=
  String.intercalate " " (to_add.map fun u => "<@" ++ u.id ++ ">")

/-- src/main.py line 123: the `text` field of the confirmation prompt. -/
def prompt_text (to_add : List Member) : String :=
  "⚠️ You\x27re about to add " ++ toString to_add.length ++
    " members to this channel:\n\n" ++ user_mentions to_add

/-- Outcome of one invocation of the `/add-all` command handler. -/
inductive CommandOutcome where
  | errorReply : CommandOutcome
  | alreadyComplete : CommandOutcome
  | promptCreated : (to_add : List Member) → (token : String) → CommandOutcome
deriving DecidableEq, Repr

/-- `handle_add_all_command` (src/main.py lines 85-164) as a function of its
oracle inputs: `users_result`/`members_result` are what `users_list` and
`conversations_members` would return, and `users_ok`/`members_ok` say
whether those calls raise (a raise lands in the `except` branch, which
sends the single error reply).  The result is the ordered trace of
outbound calls and the structured outcome.  When the computed diff is
non-empty, the confirmation prompt carries the channel id as the Confirm
button value (the correlation token). -/
def handle_add_all_command (channel_id : String) (users_result : List Member)
    (users_ok : Bool) (members_result : List String) (members_ok : Bool) :
    List Call × CommandOutcome :=
  if !users_ok then
    ([Call.usersList, Call.respond command_err_text], CommandOutcome.errorReply)
  else if !members_ok then
    ([Call.usersList, Call.conversationsMembers channel_id,
      Call.respond command_err_text], CommandOutcome.errorReply)
  else
    let to_add := users_to_add users_result members_result
    if to_add.isEmpty then
      ([Call.usersList, Call.conversationsMembers channel_id,
        Call.respond already_text], CommandOutcome.alreadyComplete)
    else
      ([Call.usersList, Call.conversationsMembers channel_id,
        Call.respond (prompt_text to_add)],
       CommandOutcome.promptCreated to_add channel_id)

/-- src/main.py line 207: the empty-diff message of the confirm handler. -/
def everyone_here_text : String := "✅ Everyone is already here."

/-- src/main.py line 238: the fallback reply of the confirm handler. -/
def confirm_err_text : String :=
  "❌ Error: I may not be in this channel. Please add me first and try again."

/-- src/main.py lines 222-224: the outcome message of the invite loop. -/
def success_msg (added_count : Nat) (failed_users : List String) : String :=
  "✅ Successfully added " ++ toString added_count ++
      " members to this channel!" ++
    (if failed_users.isEmpty then ""
     else "\n⚠️ Failed to add " ++ toString failed_users.length ++ " users.")

/-- Outcome of one invocation of the confirm-button handler. -/
inductive ConfirmOutcome where
  | errorFallback : ConfirmOutcome
  | alreadyComplete : ConfirmOutcome
  | reported : (added_count : Nat) → (failed_users : List String) → ConfirmOutcome
deriving DecidableEq, Repr

/-- The invite loop of `handle_confirm_add_all` (src/main.py lines 211-220):
one `conversations_invite` per member, in order; a raise appends the id to
`failed_users` and moves on, a success increments `added_count`.
`invite_ok u` says whether the invite for user id `u` succeeds.  Returns
(calls, added_count, failed_users). -/
def invite_loop (channel_id : String) (to_add : List Member)
    (invite_ok : String → Bool) : List Call × Nat × List String :=
  match to_add with
  | [] => ([], 0, [])
  | u :: rest =>
      let tail := invite_loop channel_id rest invite_ok
      if invite_ok u.id then
        (Call.conversationsInvite channel_id u.id :: tail.1,
         tail.2.1 + 1, tail.2.2)
      else
        (Call.conversationsInvite channel_id u.id :: tail.1,
         tail.2.1, u.id :: tail.2.2)

/-- `handle_confirm_add_all` (src/main.py lines 168-239) as a function of
its oracle inputs.  The initial `conversations_join` is attempted
unconditionally and its failure swallowed (`except: pass`), so no success
flag is needed for it.  `users_ok`/`members_ok` say whether the two reads
raise; `delete_ok` whether the `requests.post` deleting the prompt raises;
`post_ok` whether `chat_postMessage` raises.  Any raise inside the outer
`try` lands in the `except` branch, which attempts the best-effort
`replace_original` fallback reply. -/
def handle_confirm_add_all (channel_id : String) (users_result : List Member)
    (users_ok : Bool) (members_result : List String) (members_ok : Bool)
    (invite_ok : String → Bool) (delete_ok : Bool) (post_ok : Bool) :
    List Call × ConfirmOutcome :=
  let pre := [Call.conversationsJoin channel_id]
  if !users_ok then
    (pre ++ [Call.usersList, Call.replaceOriginal confirm_err_text],
     ConfirmOutcome.errorFallback)
  else if !members_ok then
    (pre ++ [Call.usersList, Call.conversationsMembers channel_id,
      Call.replaceOriginal confirm_err_text], ConfirmOutcome.errorFallback)
  else
    let reads := pre ++ [Call.usersList, Call.conversationsMembers channel_id]
    let to_add := users_to_add users_result members_result
    if to_add.isEmpty then
      if !delete_ok then
        (reads ++ [Call.deleteOriginal, Call.replaceOriginal confirm_err_text],
         ConfirmOutcome.errorFallback)
      else if !post_ok then
        (reads ++ [Call.deleteOriginal,
          Call.chatPostMessage channel_id everyone_here_text,
          Call.replaceOriginal confirm_err_text], ConfirmOutcome.errorFallback)
      else
        (reads ++ [Call.deleteOriginal,
          Call.chatPostMessage channel_id everyone_here_text],
         ConfirmOutcome.alreadyComplete)
    else
      let loop := invite_loop channel_id to_add invite_ok
      let msg := success_msg loop.2.1 loop.2.2
      if !delete_ok then
        (reads ++ loop.1 ++
          [Call.deleteOriginal, Call.replaceOriginal confirm_err_text],
         ConfirmOutcome.errorFallback)
      else if !post_ok then
        (reads ++ loop.1 ++ [Call.deleteOriginal,
          Call.chatPostMessage channel_id msg,
          Call.replaceOriginal confirm_err_text], ConfirmOutcome.errorFallback)
      else
        (reads ++ loop.1 ++
          [Call.deleteOriginal, Call.chatPostMessage channel_id msg],
         ConfirmOutcome.reported loop.2.1 loop.2.2)

/-- Outcome of the cancel-button handler: `done` when the prompt delete
succeeded, `raised` when the `requests.post` raised — there is no
`try`/`except` in `handle_cancel_add_all`, so the exception propagates out
of the handler body. -/
inductive CancelOutcome where
  | done : CancelOutcome
  | raised : CancelOutcome
deriving DecidableEq, Repr

/-- `handle_cancel_add_all` (src/main.py lines 243-255): after `ack`, it
posts `delete_original` to the response URL and nothing else.  `delete_ok`
says whether that post raises; the handler has no exception handling, so a
raise escapes the handler with no further call. -/
def handle_cancel_add_all (delete_ok : Bool) : List Call × CancelOutcome :=
  if delete_ok then ([Call.deleteOriginal], CancelOutcome.done)
  else ([Call.deleteOriginal], CancelOutcome.raised)

/-- src/main.py line 41: a channel is skipped by the sweeper when
`ch.get("is_member") or ch.get("is_archived")` is truthy; otherwise a join
is attempted. -/
def channel_eligible (c : Channel) : Bool :=
  !(c.is_member.getD false) && !(c.is_archived.getD false)

/-- One page of the sweeper loop (src/main.py lines 40-50): attempt
`conversations_join` for each eligible channel, counting successes and
continuing past failures (`join_ok c` says whether the join for channel id
`c` succeeds; a failure is logged and skipped).  Returns (calls, joined). -/
def sweep_page (page : List Channel) (join_ok : String → Bool) :
    List Call × Nat :=
  match page with
  | [] => ([], 0)
  | c :: rest =>
      let tail := sweep_page rest join_ok
      if channel_eligible c then
        if join_ok c.id then
          (Call.conversationsJoin c.id :: tail.1, tail.2 + 1)
        else
          (Call.conversationsJoin c.id :: tail.1, tail.2)
      else tail

/-- The pagination loop of `join_all_public_channels_async` (src/main.py
lines 32-58).  `pages` is the sequence of `conversations_list` responses
the cursor chain yields before `next_cursor` comes back empty or absent;
the loop issues one list call per page, processes the page, and stops when
the pages are exhausted.  Returns (calls, joined count). -/
def join_all_public_channels (pages : List (List Channel))
    (join_ok : String → Bool) : List Call × Nat :=
  match pages with
  | [] => ([], 0)
  | page :: rest =>
      let here := sweep_page page join_ok
      let tail := join_all_public_channels rest join_ok
      (Call.conversationsList :: (here.1 ++ tail.1), here.2 + tail.2)

/-- Any reply visible to the user: a `response_url` post (delete aside) or
a channel message. -/
def Call.isReply : Call → Bool
  | Call.respond _ => true
  | Call.replaceOriginal _ => true
  | Call.chatPostMessage _ _ => true
  | _ => false

/-- The ids invited successfully by one Confirm press: after the press they
are members of the channel. -/
def succeeded_ids (users : List Member) (cm : List String)
    (invite_ok : String → Bool) : List String :=
  ((users_to_add users cm).filter fun u => invite_ok u.id).map Member.id

/-- The channel ids of the join calls in a trace, in order. -/
def join_targets (calls : List Call) : List String :=
  calls.filterMap fun c =>
    match c with
    | Call.conversationsJoin cid => some cid
    | _ => none

section Lemmas

variable {ch : String} {users : List Member} {cm : List String}

lemma mem_users_to_add {m : Member} :
    m ∈ users_to_add users cm ↔
      m ∈ users ∧ m.is_bot.getD false = false ∧ m.deleted.getD false = false ∧
        m.id ≠ "USLACKBOT" ∧ cm.contains m.id = false := by
  simp only [users_to_add, active_users, List.mem_filter, Bool.and_eq_true,
    Bool.not_eq_true', bne_iff_ne, ne_eq]
  tauto

lemma invite_loop_calls (to_add : List Member) (inv : String → Bool) :
    (invite_loop ch to_add inv).1 =
      to_add.map fun u => Call.conversationsInvite ch u.id := by
  induction to_add with
  | nil => rfl
  | cons u rest ih =>
      by_cases h : inv u.id = true <;> simp [invite_loop, h, ih]

lemma invite_loop_added (to_add : List Member) (inv : String → Bool) :
    (invite_loop ch to_add inv).2.1 = to_add.countP fun u => inv u.id := by
  induction to_add with
  | nil => rfl
  | cons u rest ih =>
      by_cases h : inv u.id = true <;>
        simp [invite_loop, h, ih, List.countP_cons]

lemma invite_loop_failed (to_add : List Member) (inv : String → Bool) :
    (invite_loop ch to_add inv).2.2 =
      (to_add.filter fun u => !(inv u.id)).map Member.id := by
  induction to_add with
  | nil => rfl
  | cons u rest ih =>
      by_cases h : inv u.id = true <;> simp [invite_loop, h, ih]

end Lemmas

/-- Claim C1: for every set of workspace members `M` (a duplicate-free
list) and every set of channel-member ids `C`, the diff `users_to_add M C`
contains no member whose id is in `C`, no bot-flagged member, no deleted
member, and no member with id `USLACKBOT`; and every member of `M`
excluded by none of those rules appears exactly once in the result. -/
theorem C1_diff_spec (M : List Member) (C : List String) (hM : M.Nodup) :
    (∀ m ∈ users_to_add M C,
      C.contains m.id = false ∧ m.is_bot.getD false = false ∧
        m.deleted.getD false = false ∧ m.id ≠ "USLACKBOT") ∧
    (∀ m ∈ M, m.is_bot.getD false = false → m.deleted.getD false = false →
      m.id ≠ "USLACKBOT" → C.contains m.id = false →
      (users_to_add M C).count m = 1) := by
  constructor
  · intro m hm
    rw [mem_users_to_add] at hm
    exact ⟨hm.2.2.2.2, hm.2.1, hm.2.2.1, hm.2.2.2.1⟩
  · intro m hmM hb hd hs hc
    have h1 : (active_users M).count m = M.count m :=
      List.count_filter (by simp [hb, hd, hs])
    have h2 : (users_to_add M C).count m = (active_users M).count m :=
      List.count_filter (by simpa using hc)
    rw [h2, h1, List.count_eq_one_of_mem hM hmM]

/-- Witness for C1 at a concrete workspace. -/
theorem C1_diff_spec_witness :
    ([⟨"U1", none, none⟩, ⟨"U2", some true, none⟩] : List Member).Nodup ∧
    (users_to_add [⟨"U1", none, none⟩, ⟨"U2", some true, none⟩]
        ["U9"]).count ⟨"U1", none, none⟩ = 1 :=
  ⟨by decide,
    (C1_diff_spec [⟨"U1", none, none⟩, ⟨"U2", some true, none⟩] ["U9"]
        (by decide)).2
      ⟨"U1", none, none⟩ (by decide) (by decide) (by decide) (by decide)
      (by decide)⟩

/-- Claim C9: a member record whose `is_bot` or `deleted` key is missing
(`none`) is treated as non-bot and non-deleted, so it is included in the
diff whenever its id is not among the channel members and is not the
sentinel id; the filter is total on such records by construction. -/
theorem C9_missing_flags_default (M : List Member) (C : List String)
    (m : Member) (hmem : m ∈ M) (hb : m.is_bot = none)
    (hd : m.deleted = none) (hs : m.id ≠ "USLACKBOT")
    (hc : C.contains m.id = false) : m ∈ users_to_add M C := by
  rw [mem_users_to_add]
  exact ⟨hmem, by simp [hb], by simp [hd], hs, hc⟩

/-- Witness for C9: a flagless record lands in the diff. -/
theorem C9_missing_flags_default_witness :
    (⟨"U7", none, none⟩ : Member) ∈
      users_to_add [⟨"U7", none, none⟩] ["U8"] :=
  C9_missing_flags_default [⟨"U7", none, none⟩] ["U8"] ⟨"U7", none, none⟩
    (by decide) (by decide) (by decide) (by decide) (by decide)

/-- Claim C4: when the diff computed by the command handler is empty, no
confirmation prompt is created, the user gets the already-complete reply,
and the invocation makes no Directory Client mutation call. -/
theorem C4_empty_diff_command (ch : String) (users : List Member)
    (cm : List String) (h : users_to_add users cm = []) :
    (handle_add_all_command ch users true cm true).2 =
      CommandOutcome.alreadyComplete ∧
    (handle_add_all_command ch users true cm true).1 =
      [Call.usersList, Call.conversationsMembers ch,
        Call.respond already_text] ∧
    (handle_add_all_command ch users true cm true).1.filter
      Call.isMutation = [] := by
  have htrace : handle_add_all_command ch users true cm true =
      ([Call.usersList, Call.conversationsMembers ch,
        Call.respond already_text], CommandOutcome.alreadyComplete) := by
    simp [handle_add_all_command, h]
  rw [htrace]
  exact ⟨rfl, rfl, rfl⟩

/-- Witness for C4 at a concrete one-bot workspace. -/
theorem C4_empty_diff_command_witness :
    (handle_add_all_command "C0" [⟨"U1", some true, none⟩] true [] true).2 =
      CommandOutcome.alreadyComplete :=
  (C4_empty_diff_command "C0" [⟨"U1", some true, none⟩] [] (by decide)).1

/-- Claim C5: a Confirm press whose recomputed diff is empty performs zero
invite calls (for every delete/post failure pattern) and, when the prompt
removal and the channel post succeed, reports the already-complete
outcome rather than an error. -/
theorem C5_confirm_empty_diff (ch : String) (users : List Member)
    (cm : List String) (inv : String → Bool) (d p : Bool)
    (h : users_to_add users cm = []) :
    (handle_confirm_add_all ch users true cm true inv d p).1.filter
      Call.isInvite = [] ∧
    (handle_confirm_add_all ch users true cm true inv true true).2 =
      ConfirmOutcome.alreadyComplete := by
  constructor
  · cases d <;> cases p <;>
      simp [handle_confirm_add_all, h, Call.isInvite, List.filter_cons]
  · simp [handle_confirm_add_all, h]

/-- Witness for C5: everyone already present at confirm time. -/
theorem C5_confirm_empty_diff_witness :
    (handle_confirm_add_all "C0" [⟨"U1", none, none⟩] true ["U1"] true
      (fun _ => true) true true).2 = ConfirmOutcome.alreadyComplete :=
  (C5_confirm_empty_diff "C0" [⟨"U1", none, none⟩] ["U1"] (fun _ => true)
    true true (by decide)).2

lemma filter_isInvite_map (ch : String) (l : List Member) :
    (l.map fun u => Call.conversationsInvite ch u.id).filter Call.isInvite =
      l.map fun u => Call.conversationsInvite ch u.id := by
  refine List.filter_eq_self.mpr fun c hc => ?_
  obtain ⟨u, _, rfl⟩ := List.mem_map.mp hc
  rfl

/-- Claim C3: after Confirm with a non-empty recomputed diff, each diff
member gets exactly one invite attempt, in diff order (so a failing invite
neither aborts nor skips the rest, and successes are kept regardless of
later failures); the outcome reports the succeeded count together with the
recorded failed users, and the posted report message carries the succeeded
count and, exactly when some invite failed, the failed count (by the
definition of `success_msg`). -/
theorem C3_invite_phase (ch : String) (users : List Member)
    (cm : List String) (inv : String → Bool)
    (h : users_to_add users cm ≠ []) :
    (handle_confirm_add_all ch users true cm true inv true true).1.filter
        Call.isInvite =
      (users_to_add users cm).map
        (fun u => Call.conversationsInvite ch u.id) ∧
    (handle_confirm_add_all ch users true cm true inv true true).2 =
      ConfirmOutcome.reported
        ((users_to_add users cm).countP fun u => inv u.id)
        (((users_to_add users cm).filter fun u => !(inv u.id)).map
          Member.id) ∧
    Call.chatPostMessage ch
        (success_msg ((users_to_add users cm).countP fun u => inv u.id)
          (((users_to_add users cm).filter fun u => !(inv u.id)).map
            Member.id)) ∈
      (handle_confirm_add_all ch users true cm true inv true true).1 := by
  have hne : (users_to_add users cm).isEmpty = false := by
    simpa [List.isEmpty_iff] using h
  refine ⟨?_, ?_, ?_⟩
  · simp [handle_confirm_add_all, hne, invite_loop_calls, List.filter_append,
      List.filter_cons, Call.isInvite, filter_isInvite_map]
  · simp [handle_confirm_add_all, hne, invite_loop_added, invite_loop_failed]
  · simp [handle_confirm_add_all, hne, invite_loop_added, invite_loop_failed,
      List.mem_append]

/-- Witness for C3: two proposed members, the invite for the second one
fails; both are attempted and the report is 1 succeeded, 1 failed. -/
theorem C3_invite_phase_witness :
    (handle_confirm_add_all "C0" [⟨"U1", none, none⟩, ⟨"U2", none, none⟩]
        true [] true (fun u => u == "U1") true true).2 =
      ConfirmOutcome.reported 1 ["U2"] :=
  (C3_invite_phase "C0" [⟨"U1", none, none⟩, ⟨"U2", none, none⟩] []
    (fun u => u == "U1") (by decide)).2.1

lemma countP_add_countP_not {α : Type} (p : α → Bool) (l : List α) :
    l.countP p + l.countP (fun a => !(p a)) = l.length := by
  induction l with
  | nil => rfl
  | cons a l ih =>
      by_cases hp : p a = true <;> simp [List.countP_cons, hp] <;> omega

/-- Claim C10: whenever a Confirm press reports succeeded count `a` and
failed users `f`, then `a + f.length` equals the size of the recomputed
diff: every diff member is tallied as exactly one of success or failure. -/
theorem C10_tally (ch : String) (users : List Member) (cm : List String)
    (inv : String → Bool) (a : Nat) (f : List String)
    (h : (handle_confirm_add_all ch users true cm true inv true true).2 =
      ConfirmOutcome.reported a f) :
    a + f.length = (users_to_add users cm).length := by
  by_cases he : (users_to_add users cm).isEmpty
  · simp [handle_confirm_add_all, he] at h
  · rw [Bool.not_eq_true] at he
    simp [handle_confirm_add_all, he, invite_loop_added,
      invite_loop_failed] at h
    obtain ⟨rfl, rfl⟩ := h
    rw [List.length_map, ← List.countP_eq_length_filter]
    exact countP_add_countP_not _ _

/-- Witness for C10: one success and one failure tally to the diff size. -/
theorem C10_tally_witness : 1 + (["U2"] : List String).length =
    (users_to_add [⟨"U1", none, none⟩, ⟨"U2", none, none⟩] []).length :=
  C10_tally "C0" [⟨"U1", none, none⟩, ⟨"U2", none, none⟩] []
    (fun u => u == "U1") 1 ["U2"] (by decide)

lemma confirm_invite_mem (ch : String) (U : List Member) (CM : List String)
    (inv : String → Bool) (d p : Bool) (uid : String)
    (hm : Call.conversationsInvite ch uid ∈
      (handle_confirm_add_all ch U true CM true inv d p).1) :
    uid ∈ (users_to_add U CM).map Member.id := by
  by_cases he : (users_to_add U CM).isEmpty
  · cases d <;> cases p <;> simp [handle_confirm_add_all, he] at hm
  · rw [Bool.not_eq_true] at he
    cases d <;> cases p <;>
      simp [handle_confirm_add_all, he, invite_loop_calls,
        List.mem_append] at hm <;>
      exact List.mem_map.mpr ⟨_, hm.choose_spec.1, hm.choose_spec.2⟩

/-- Claim C2: a successful earlier Confirm press leaves its invited
members in the channel, and every later Confirm press recomputes the diff
from the then-current workspace and channel membership, so no member
invited successfully by the earlier press is invited again — for any later
workspace listing, invite oracle, and delete/post failure pattern. -/
theorem C2_no_double_invite (ch : String) (users users2 : List Member)
    (cm : List String) (inv inv2 : String → Bool) (d p : Bool)
    (uid : String) (h : uid ∈ succeeded_ids users cm inv) :
    Call.conversationsInvite ch uid ∉
      (handle_confirm_add_all ch users2 true
        (cm ++ succeeded_ids users cm inv) true inv2 d p).1 := by
  intro hmem
  have h2 := confirm_invite_mem ch users2
    (cm ++ succeeded_ids users cm inv) inv2 d p uid hmem
  obtain ⟨u, hu, hid⟩ := List.mem_map.mp h2
  have hnc := (mem_users_to_add.mp hu).2.2.2.2
  rw [hid] at hnc
  have : uid ∈ cm ++ succeeded_ids users cm inv :=
    List.mem_append_right _ h
  simp [this] at hnc

/-- Witness for C2: after a press that successfully invited `U1`, a second
press with the updated channel membership does not invite `U1` again. -/
theorem C2_no_double_invite_witness :
    Call.conversationsInvite "C1" "U1" ∉
      (handle_confirm_add_all "C1" [⟨"U1", none, none⟩] true
        (["U0"] ++ succeeded_ids [⟨"U1", none, none⟩] ["U0"]
          (fun _ => true)) true (fun _ => true) true true).1 :=
  C2_no_double_invite "C1" [⟨"U1", none, none⟩] [⟨"U1", none, none⟩]
    ["U0"] (fun _ => true) (fun _ => true) true true "U1" (by decide)

/-- Claim C6: the Cancel handler only posts the prompt deletion — its
trace is exactly the delete of the original message, so it contains no
invite and no join (and no channel message at all), and when the delete
succeeds the handler finishes normally. -/
theorem C6_cancel_frame :
    (∀ d : Bool, (handle_cancel_add_all d).1 = [Call.deleteOriginal] ∧
      (handle_cancel_add_all d).1.filter Call.isInvite = [] ∧
      (handle_cancel_add_all d).1.filter Call.isJoin = []) ∧
    (handle_cancel_add_all true).2 = CancelOutcome.done := by
  refine ⟨fun d => ?_, rfl⟩
  cases d <;> exact ⟨rfl, rfl, rfl⟩

/-- Counterexample to C7: in the Cancel handler a failing prompt-delete
raises out of the handler (there is no try/except around it), and the
trace contains no reply to the user at all — no fallback is produced. -/
theorem C7_cancel_no_fallback :
    (handle_cancel_add_all false).2 = CancelOutcome.raised ∧
    (handle_cancel_add_all false).1.filter Call.isReply = [] := by
  exact ⟨rfl, rfl⟩

/-- Claim C7 as amended: only the Confirm handler catches a failure of the
prompt delete/replace call and attempts the best-effort fallback reply;
the Cancel handler has no exception handling, so there the failure
propagates out of the handler with no fallback reply. -/
theorem C7_amended_fallback (ch : String) (users : List Member)
    (cm : List String) (inv : String → Bool) (p : Bool) :
    (Call.replaceOriginal confirm_err_text ∈
        (handle_confirm_add_all ch users true cm true inv false p).1 ∧
      (handle_confirm_add_all ch users true cm true inv false p).2 =
        ConfirmOutcome.errorFallback) ∧
    ((handle_cancel_add_all false).1.filter Call.isReply = [] ∧
      (handle_cancel_add_all false).2 = CancelOutcome.raised) := by
  refine ⟨?_, rfl, rfl⟩
  by_cases he : (users_to_add users cm).isEmpty
  · constructor <;> simp [handle_confirm_add_all, he, List.mem_append]
  · rw [Bool.not_eq_true] at he
    constructor <;> simp [handle_confirm_add_all, he, List.mem_append]

lemma sweep_page_targets (page : List Channel) (ok : String → Bool) :
    join_targets (sweep_page page ok).1 =
      (page.filter channel_eligible).map Channel.id := by
  induction page with
  | nil => rfl
  | cons c rest ih =>
      by_cases h : channel_eligible c
      · by_cases h2 : ok c.id = true <;>
          simp [sweep_page, h, h2, join_targets, List.filterMap_cons] <;>
          simpa [join_targets] using ih
      · simp [sweep_page, h, List.filter_cons, ih]

lemma sweep_page_joined (page : List Channel) (ok : String → Bool) :
    (sweep_page page ok).2 =
      (page.filter channel_eligible).countP fun c => ok c.id := by
  induction page with
  | nil => rfl
  | cons c rest ih =>
      by_cases h : channel_eligible c
      · by_cases h2 : ok c.id = true <;>
          simp [sweep_page, h, h2, List.filter_cons, List.countP_cons, ih]
      · simp [sweep_page, h, List.filter_cons, ih]

lemma sweep_page_no_list (page : List Channel) (ok : String → Bool) :
    (sweep_page page ok).1.countP Call.isList = 0 := by
  induction page with
  | nil => rfl
  | cons c rest ih =>
      by_cases h : channel_eligible c
      · by_cases h2 : ok c.id = true <;>
          simp [sweep_page, h, h2, List.countP_cons, Call.isList, ih]
      · simp [sweep_page, h, ih]

lemma join_targets_append (l1 l2 : List Call) :
    join_targets (l1 ++ l2) = join_targets l1 ++ join_targets l2 :=
  List.filterMap_append l1 l2 _

lemma join_all_cons_fst (page : List Channel) (rest : List (List Channel))
    (ok : String → Bool) :
    (join_all_public_channels (page :: rest) ok).1 =
      Call.conversationsList ::
        ((sweep_page page ok).1 ++ (join_all_public_channels rest ok).1) :=
  rfl

lemma join_all_cons_snd (page : List Channel) (rest : List (List Channel))
    (ok : String → Bool) :
    (join_all_public_channels (page :: rest) ok).2 =
      (sweep_page page ok).2 + (join_all_public_channels rest ok).2 :=
  rfl

/-- Claim C8: the sweeper issues one channel-listing call per page until
the pages the cursor chain yields are exhausted (termination is by
construction: the function is structurally recursive on the page list),
attempts to join exactly the channels that are neither already joined nor
archived — independently of which joins fail, so a failure never cuts the
sweep short — and counts as joined exactly the attempts that succeed. -/
theorem C8_sweeper_spec (pages : List (List Channel)) (ok : String → Bool) :
    join_targets (join_all_public_channels pages ok).1 =
      ((pages.flatten).filter channel_eligible).map Channel.id ∧
    (join_all_public_channels pages ok).1.countP Call.isList =
      pages.length ∧
    (join_all_public_channels pages ok).2 =
      ((pages.flatten).filter channel_eligible).countP fun c => ok c.id := by
  induction pages with
  | nil => exact ⟨rfl, rfl, rfl⟩
  | cons page rest ih =>
      refine ⟨?_, ?_, ?_⟩
      · have h1 : join_targets (join_all_public_channels (page :: rest) ok).1 =
            join_targets ((sweep_page page ok).1 ++
              (join_all_public_channels rest ok).1) := rfl
        rw [h1, join_targets_append, sweep_page_targets, ih.1,
          List.flatten_cons, List.filter_append, List.map_append]
      · rw [join_all_cons_fst, List.countP_cons, List.countP_append,
          sweep_page_no_list, ih.2.1]
        simp [Call.isList]
      · rw [join_all_cons_snd, sweep_page_joined, ih.2.2, List.flatten_cons,
          List.filter_append, List.countP_append]

end SlackBot
